import Mathlib

/-!
# Verification of the `Calcular_Salario` payroll calculation core

Shallow embedding of the calculation engine of `Calcular_Salario.py`
(INSS progressive withholding, insalubridade apportionment, proportional
benefit discounts, result aggregation, currency format/parse, and the
worked-days calendar check).  Python floats are modelled as exact
rationals (`ℚ`); Python ints as `ℤ`.
-/

namespace CalcularSalario

/-- `INSS_LIMITS = [1518.00, 2793.88, 4190.83, 8157.41]` (line 27). -/
def INSS_LIMITS : List ℚ := [1518.00, 2793.88, 4190.83, 8157.41]

/-- `INSS_RATES = [0.075, 0.09, 0.12, 0.14]` (line 28). -/
def INSS_RATES : List ℚ := [0.075, 0.09, 0.12, 0.14]

/-- `SALARIO_MINIMO = 1518.00` (line 32). -/
def SALARIO_MINIMO : ℚ := 1518.00

/-- The `for i, upper in enumerate(INSS_LIMITS)` loop of `calcular_inss`
(lines 67-79): state is the running `lower` bound and the accumulator
`inss_total`; the remaining `(upper, rate)` pairs drive the recursion.
`salario_bruto > upper` takes the full-bracket branch, otherwise the
partial contribution is added and the loop returns early. -/
def inssLoop (salario_bruto : ℚ) : ℚ → ℚ → List (ℚ × ℚ) → ℚ
  | _, inss_total, [] => inss_total
  | lower, inss_total, (upper, rate) :: rest =>
    if upper < salario_bruto then
      inssLoop salario_bruto upper (inss_total + (upper - lower) * rate) rest
    else
      inss_total + (salario_bruto - lower) * rate

/-- `calcular_inss` (lines 61-79): returns `0` for non-positive gross salary,
otherwise runs the bracket loop over `INSS_LIMITS` zipped with `INSS_RATES`
starting from `lower = 0`, `inss_total = 0`. -/
def calcular_inss (salario_bruto : ℚ) : ℚ :=
  if salario_bruto ≤ 0 then 0
  else inssLoop salario_bruto 0 0 (INSS_LIMITS.zip INSS_RATES)

/-- `calcular_insalubridade` (lines 81-91): total over the minimum wage,
split into the 40% and 60% installments. -/
def calcular_insalubridade (percentual : ℚ) : ℚ × ℚ × ℚ :=
  if percentual ≤ 0 then (0, 0, 0)
  else
    let insal_total := SALARIO_MINIMO * (percentual / 100)
    let parcela_40 := insal_total * 0.40
    let parcela_60 := insal_total * 0.60
    (insal_total, parcela_40, parcela_60)

/-- `calcular_vr` (lines 93-96): meal-voucher discount, gated on all three
arguments being strictly positive. -/
def calcular_vr (valor_vr : ℚ) (dias_vr : ℤ) (percentual_desconto : ℚ) : ℚ :=
  if 0 < percentual_desconto ∧ 0 < valor_vr ∧ 0 < dias_vr then
    (valor_vr * dias_vr) * (percentual_desconto / 100)
  else 0

/-- `calcular_vt` (lines 98-104): proportional discount on the gross salary
(used for VT, health plan and dental plan). -/
def calcular_vt (salario_bruto : ℚ) (percentual_desconto : ℚ) : ℚ :=
  if 0 < percentual_desconto ∧ 0 < salario_bruto then
    salario_bruto * (percentual_desconto / 100)
  else 0

/-- One display line of the breakdown built by `get_resultados_string`
(lines 147-186).  Each constructor corresponds to one `linhas.append(...)`
call, carrying the numeric payloads the Python f-string interpolates; the
`sem...` constructors are the literal "Sem desconto de ..." notices of the
`else` branches, and `separator` is the `SEPARATOR` constant. -/
inductive Linha where
  | salarioBruto (valor : ℚ)
  | adiantamentoSalario (perc valor : ℚ)
  | valorVR (dias : ℤ) (valor : ℚ)
  | adiantamentoInsalubridade (valor : ℚ)
  | valorFinalInsalubridade (valor : ℚ)
  | adiantamentoSoma (perc valor : ℚ)
  | separator
  | descontoINSS (percentual valor : ℚ)
  | descontoVR (perc valor : ℚ)
  | semDescontoVR
  | descontoVT (perc valor : ℚ)
  | semDescontoVT
  | descontoSaude (perc valor : ℚ)
  | semDescontoSaude
  | descontoOdonto (perc valor : ℚ)
  | semDescontoOdonto
  | totalDescontos (valor : ℚ)
  | totalProventos (valor : ℚ)
  | totalInsalubridade (valor : ℚ)
  | salarioLiquido (valor : ℚ)
  deriving DecidableEq

/-- The values computed by `get_resultados_string` (lines 109-188): the local
variables of the Python function together with the ordered line items the
function renders into its result string. -/
structure ResultadoFolha where
  desconto_inss : ℚ
  insal_total : ℚ
  parcela_40 : ℚ
  parcela_60 : ℚ
  desconto_vr : ℚ
  desconto_vt : ℚ
  desconto_saude : ℚ
  desconto_odonto : ℚ
  adiantamento_40 : ℚ
  salario_liquido : ℚ
  percentual_inss : ℚ
  total_descontos : ℚ
  linhas : List Linha
  deriving DecidableEq

/-- Embedding of `get_resultados_string` (lines 109-188), with the rendering
of each line to text abstracted as a `Linha` item: the computations and the
order and gating of the appended lines follow the source exactly. -/
def get_resultados (salario_bruto adiantamento_salario insalubridade_percentual
    valor_vr : ℚ) (dias_vr : ℤ) (desconto_vr_percentual desconto_vt_percentual
    desconto_saude_percentual desconto_odonto_percentual : ℚ) : ResultadoFolha :=
  let desconto_inss := calcular_inss salario_bruto
  let insal := calcular_insalubridade insalubridade_percentual
  let insal_total := insal.1
  let parcela_40 := insal.2.1
  let parcela_60 := insal.2.2
  let desconto_vr := calcular_vr valor_vr dias_vr desconto_vr_percentual
  let desconto_vt := calcular_vt salario_bruto desconto_vt_percentual
  let desconto_saude := calcular_vt salario_bruto desconto_saude_percentual
  let desconto_odonto := calcular_vt salario_bruto desconto_odonto_percentual
  let adiantamento_40 := (adiantamento_salario / 100) * salario_bruto
  let adiantamento_insalubridade_40 := parcela_40
  let salario_liquido :=
    salario_bruto - desconto_inss - desconto_vr - desconto_vt
      - desconto_saude - desconto_odonto + insal_total
  let percentual_inss :=
    if 0 < salario_bruto then desconto_inss / salario_bruto * 100 else 0
  let total_descontos :=
    desconto_inss + desconto_vr + desconto_vt + desconto_saude + desconto_odonto
  let linhas : List Linha :=
    [Linha.salarioBruto salario_bruto,
     Linha.adiantamentoSalario adiantamento_salario adiantamento_40,
     Linha.valorVR dias_vr (valor_vr * dias_vr),
     Linha.adiantamentoInsalubridade adiantamento_insalubridade_40,
     Linha.valorFinalInsalubridade parcela_60,
     Linha.adiantamentoSoma adiantamento_salario
       (adiantamento_40 + adiantamento_insalubridade_40),
     Linha.separator,
     Linha.descontoINSS percentual_inss desconto_inss,
     (if 0 < desconto_vr_percentual then
        Linha.descontoVR desconto_vr_percentual desconto_vr
      else Linha.semDescontoVR),
     (if 0 < desconto_vt_percentual then
        Linha.descontoVT desconto_vt_percentual desconto_vt
      else Linha.semDescontoVT),
     (if 0 < desconto_saude_percentual then
        Linha.descontoSaude desconto_saude_percentual desconto_saude
      else Linha.semDescontoSaude),
     (if 0 < desconto_odonto_percentual then
        Linha.descontoOdonto desconto_odonto_percentual desconto_odonto
      else Linha.semDescontoOdonto),
     Linha.totalDescontos total_descontos,
     Linha.separator,
     Linha.totalProventos (salario_bruto + insal_total),
     Linha.totalInsalubridade insal_total,
     Linha.separator,
     Linha.salarioLiquido salario_liquido,
     Linha.separator]
  { desconto_inss := desconto_inss
    insal_total := insal_total
    parcela_40 := parcela_40
    parcela_60 := parcela_60
    desconto_vr := desconto_vr
    desconto_vt := desconto_vt
    desconto_saude := desconto_saude
    desconto_odonto := desconto_odonto
    adiantamento_40 := adiantamento_40
    salario_liquido := salario_liquido
    percentual_inss := percentual_inss
    total_descontos := total_descontos
    linhas := linhas }

/-- Models Python's `calendar.isleap(year)`:
`year % 4 == 0 and (year % 100 != 0 or year % 400 == 0)`.  Python's `%` on a
positive modulus agrees with `Int.emod`. -/
def isleap (year : ℤ) : Bool :=
  year % 4 == 0 && (year % 100 != 0 || year % 400 == 0)

/-- Models Python's `calendar.mdays` table (index 0 is a placeholder). -/
def mdays : List ℤ := [0, 31, 28, 31, 30, 31, 30, 31, 31, 30, 31, 30, 31]

/-- Models `calendar.monthrange(ano, mes)[1]` for `1 ≤ mes ≤ 12`:
`mdays[month] + (month == FEBRUARY and isleap(year))`. -/
def dias_no_mes (ano mes : ℤ) : ℤ :=
  mdays.getD mes.toNat 0 + (if mes = 2 ∧ isleap ano then 1 else 0)

/-- `verificar_dias_validos` (lines 193-201): `False` for a month outside
1-12, otherwise `0 <= dias_trab_mes <= dias_no_mes`. -/
def verificar_dias_validos (ano mes dias_trab_mes : ℤ) : Bool :=
  if mes < 1 ∨ 12 < mes then false
  else decide (0 ≤ dias_trab_mes ∧ dias_trab_mes ≤ dias_no_mes ano mes)

/-- The ASCII character of a decimal digit. -/
def digitChar (d : ℕ) : Char := Char.ofNat (48 + d)

/-- The decimal digit of an ASCII digit character. -/
def charToDigit (c : Char) : ℕ := c.toNat - 48

/-- Big-endian decimal digit characters of a natural number (`"0"` for 0),
as produced by Python's integer formatting. -/
def natToChars (n : ℕ) : List Char :=
  if n = 0 then ['0'] else ((Nat.digits 10 n).map digitChar).reverse

/-- Thousands grouping on a reversed digit list: insert `'.'` after every
three characters counted from the right.  Models the grouping of
`f"{valor:,.2f}"` with the separators already swapped to the Brazilian
convention (line 46). -/
def agruparRev (ds : List Char) : List Char :=
  if ds.length ≤ 3 then ds
  else ds.take 3 ++ '.' :: agruparRev (ds.drop 3)
termination_by ds.length
decreasing_by simp; omega

/-- Thousands grouping of a big-endian digit list. -/
def agrupar (ds : List Char) : List Char := (agruparRev ds.reverse).reverse

/-- `formatar_valor` (lines 37-46): renders a number with grouped thousands
separated by `'.'`, two decimal digits, and `','` as the decimal separator
(e.g. `1518.0 ↦ "1.518,00"`).  Both the `locale.currency('pt_BR')` path and
the fallback f-string produce this shape; the value is first scaled to
cents and rounded (on inputs exactly representable with two decimals the
rounding mode is irrelevant). -/
def formatar_valor (valor : ℚ) : String :=
  let cents : ℤ := round (valor * 100)
  let n : ℕ := cents.natAbs
  let sign : List Char := if cents < 0 then ['-'] else []
  String.mk
    (sign ++ agrupar (natToChars (n / 100)) ++
      ',' :: [digitChar (n % 100 / 10), digitChar (n % 100 % 10)])

/-- Parses a nonempty all-digit character list as a natural number. -/
def parseNat (cs : List Char) : Option ℕ :=
  if cs ≠ [] ∧ cs.all (·.isDigit) then
    some (Nat.ofDigits 10 ((cs.map charToDigit).reverse))
  else none

/-- Models Python's builtin `float(...)` on an unsigned plain decimal string
(`"123"`, `"123.45"`, `"123."`, `".45"`); anything else is a `ValueError`
(`none`).  Exponents and underscores, which `float` also accepts but the
program never produces, are not modelled. -/
def pyFloatAbs (cs : List Char) : Option ℚ :=
  let intPart := cs.takeWhile (fun c => c ≠ '.')
  let rest := cs.dropWhile (fun c => c ≠ '.')
  if rest = [] then (parseNat intPart).map (fun k => (k : ℚ))
  else
    let fracPart := rest.tail
    if intPart = [] ∧ fracPart = [] then none
    else if intPart.all (·.isDigit) ∧ fracPart.all (·.isDigit) then
      some (((Nat.ofDigits 10 ((intPart.map charToDigit).reverse) : ℕ) : ℚ) +
        ((Nat.ofDigits 10 ((fracPart.map charToDigit).reverse) : ℕ) : ℚ) /
          10 ^ fracPart.length)
    else none

/-- Models Python's builtin `float(...)`: an optional sign followed by an
unsigned plain decimal string. -/
def pyFloat : List Char → Option ℚ
  | [] => none
  | c :: rest =>
    if c = '-' then (pyFloatAbs rest).map (fun q => -q)
    else if c = '+' then pyFloatAbs rest
    else pyFloatAbs (c :: rest)

/-- `limpar_formato` (lines 48-56): the empty string parses to `0`;
otherwise every `'.'` (thousands separator) is removed, `','` becomes
`'.'`, and the result is parsed with `float(...)`. -/
def limpar_formato (valor : String) : Option ℚ :=
  if valor = "" then some 0
  else
    pyFloat
      ((valor.data.filter (fun c => c ≠ '.')).map
        (fun c => if c = ',' then '.' else c))

/-- Closed form of `calcular_inss` with the four brackets unfolded. -/
theorem calcular_inss_eq (s : ℚ) :
    calcular_inss s =
      if s ≤ 0 then 0
      else if 1518 < s then
        if 2793.88 < s then
          if 4190.83 < s then
            if 8157.41 < s then 951.6344
            else 396.3132 + (s - 4190.83) * 0.14
          else 228.6792 + (s - 2793.88) * 0.12
        else 113.85 + (s - 1518) * 0.09
      else (s - 0) * 0.075 := by
  simp only [calcular_inss, INSS_LIMITS, INSS_RATES, List.zip, List.zipWith, inssLoop]
  norm_num

/-- C2: Monotonicity of the INSS bracket calculator: for every pair of gross
salaries `g1 ≤ g2`, `calcular_inss g1 ≤ calcular_inss g2`. -/
theorem calcular_inss_monotone (g1 g2 : ℚ) (h : g1 ≤ g2) :
    calcular_inss g1 ≤ calcular_inss g2 := by
  rw [calcular_inss_eq, calcular_inss_eq]
  split_ifs <;> linarith

/-- Witness for C2 at `g1 = 1000`, `g2 = 2000`. -/
theorem calcular_inss_monotone_witness :
    calcular_inss 1000 ≤ calcular_inss 2000 :=
  calcular_inss_monotone 1000 2000 (by norm_num)

/-- C3: INSS point values: for every gross salary `g ≤ 0` (including `0` and
`-5`) the contribution is `0`, and exactly at the first bracket ceiling
`calcular_inss 1518 = 1518 * 0.075 = 113.85`. -/
theorem calcular_inss_point_values :
    (∀ g : ℚ, g ≤ 0 → calcular_inss g = 0) ∧
      calcular_inss 0 = 0 ∧ calcular_inss (-5) = 0 ∧
      calcular_inss 1518 = 1518 * 0.075 ∧ calcular_inss 1518 = 113.85 := by
  refine ⟨fun g hg => by rw [calcular_inss_eq, if_pos hg], ?_, ?_, ?_, ?_⟩ <;>
    rw [calcular_inss_eq] <;> norm_num

/-- Witness for C3 at `g = -7`. -/
theorem calcular_inss_point_values_witness : calcular_inss (-7) = 0 :=
  calcular_inss_point_values.1 (-7) (by norm_num)

/-- C4: INSS contribution ceiling: for every gross salary strictly above the
top bracket limit `8157.41`, `calcular_inss` returns the constant sum over
the four brackets of `(upper - lower) * rate`; nothing above the last upper
limit is charged. -/
theorem calcular_inss_ceiling (g : ℚ) (h : 8157.41 < g) :
    calcular_inss g =
      (1518 - 0) * 0.075 + (2793.88 - 1518) * 0.09 +
        (4190.83 - 2793.88) * 0.12 + (8157.41 - 4190.83) * 0.14 := by
  rw [calcular_inss_eq]
  rw [if_neg (by linarith), if_pos (by linarith), if_pos (by linarith),
    if_pos (by linarith), if_pos h]
  norm_num

/-- Witness for C4 at `g = 9000`. -/
theorem calcular_inss_ceiling_witness :
    calcular_inss 9000 =
      (1518 - 0) * 0.075 + (2793.88 - 1518) * 0.09 +
        (4190.83 - 2793.88) * 0.12 + (8157.41 - 4190.83) * 0.14 :=
  calcular_inss_ceiling 9000 (by norm_num)

/-- C5: Insalubridade calculator: for `p ≤ 0` the result is `(0, 0, 0)`;
for `p > 0` the total is `1518 * p / 100`, the installments are `total * 0.40`
and `total * 0.60`, and the installments sum exactly to the total. -/
theorem calcular_insalubridade_spec (p : ℚ) :
    (p ≤ 0 → calcular_insalubridade p = (0, 0, 0)) ∧
      (0 < p →
        (calcular_insalubridade p).1 = 1518 * p / 100 ∧
          (calcular_insalubridade p).2.1 = (calcular_insalubridade p).1 * 0.40 ∧
          (calcular_insalubridade p).2.2 = (calcular_insalubridade p).1 * 0.60 ∧
          (calcular_insalubridade p).2.1 + (calcular_insalubridade p).2.2 =
            (calcular_insalubridade p).1) := by
  constructor
  · intro hp
    simp [calcular_insalubridade, hp]
  · intro hp
    rw [calcular_insalubridade, if_neg (by linarith)]
    refine ⟨?_, by ring, by ring, by ring⟩
    rw [SALARIO_MINIMO]
    ring

/-- Witness for C5 at `p = -1` and `p = 20`. -/
theorem calcular_insalubridade_spec_witness :
    calcular_insalubridade (-1) = (0, 0, 0) ∧
      (calcular_insalubridade 20).1 = 1518 * 20 / 100 ∧
      (calcular_insalubridade 20).2.1 + (calcular_insalubridade 20).2.2 =
        (calcular_insalubridade 20).1 :=
  ⟨(calcular_insalubridade_spec (-1)).1 (by norm_num),
    ((calcular_insalubridade_spec 20).2 (by norm_num)).1,
    ((calcular_insalubridade_spec 20).2 (by norm_num)).2.2.2⟩

/-- C6: Meal-voucher discount gating: `calcular_vr` returns
`(unit_value * paid_days) * discount / 100` when the discount percentage,
the unit value and the paid days are all strictly positive, and `0` whenever
any of the three is zero or negative. -/
theorem calcular_vr_spec (valor_vr : ℚ) (dias_vr : ℤ) (percentual : ℚ) :
    (0 < percentual → 0 < valor_vr → 0 < dias_vr →
        calcular_vr valor_vr dias_vr percentual =
          (valor_vr * dias_vr) * (percentual / 100)) ∧
      (percentual ≤ 0 ∨ valor_vr ≤ 0 ∨ dias_vr ≤ 0 →
        calcular_vr valor_vr dias_vr percentual = 0) := by
  constructor
  · intro hp hv hd
    rw [calcular_vr, if_pos ⟨hp, hv, hd⟩]
  · intro hcases
    rw [calcular_vr, if_neg]
    rintro ⟨hp, hv, hd⟩
    rcases hcases with h | h | h <;> linarith

/-- Witness for C6 at `(20, 22, 50)` (positive case) and `(20, 0, 50)`
(zero paid days). -/
theorem calcular_vr_spec_witness :
    calcular_vr 20 22 50 = (20 * 22) * (50 / 100) ∧ calcular_vr 20 0 50 = 0 :=
  ⟨(calcular_vr_spec 20 22 50).1 (by norm_num) (by norm_num) (by norm_num),
    (calcular_vr_spec 20 0 50).2 (Or.inr (Or.inr (by norm_num)))⟩

/-- C1: End-to-end aggregation for gross = 3000.00, advance = 0%,
insalubridade = 20%, VR 20.00 × 22 days, VR discount 0%, VT discount 6%,
health 0%, dental 0%: INSS is the bracket sum `1518*0.075 +
(2793.88-1518)*0.09 + (3000-2793.88)*0.12` (within 0.01 of 253.41),
insalubridade total is `1518*0.20 = 303.60` with installments 121.44 and
182.16, the VT discount is `3000*0.06 = 180.00`, and the net salary is
`3000 - INSS - 180 + 303.60` (within 0.01 of 2870.19). -/
theorem end_to_end_scenario :
    (get_resultados 3000 0 20 20 22 0 6 0 0).desconto_inss =
        1518 * 0.075 + (2793.88 - 1518) * 0.09 + (3000 - 2793.88) * 0.12 ∧
      |(get_resultados 3000 0 20 20 22 0 6 0 0).desconto_inss - 253.41| < 0.01 ∧
      (get_resultados 3000 0 20 20 22 0 6 0 0).insal_total = 1518 * 0.20 ∧
      (get_resultados 3000 0 20 20 22 0 6 0 0).insal_total = 303.60 ∧
      (get_resultados 3000 0 20 20 22 0 6 0 0).parcela_40 = 121.44 ∧
      (get_resultados 3000 0 20 20 22 0 6 0 0).parcela_60 = 182.16 ∧
      (get_resultados 3000 0 20 20 22 0 6 0 0).desconto_vt = 3000 * 0.06 ∧
      (get_resultados 3000 0 20 20 22 0 6 0 0).desconto_vt = 180.00 ∧
      (get_resultados 3000 0 20 20 22 0 6 0 0).salario_liquido =
        3000 - (get_resultados 3000 0 20 20 22 0 6 0 0).desconto_inss
          - 180.00 + 303.60 ∧
      |(get_resultados 3000 0 20 20 22 0 6 0 0).salario_liquido - 2870.19|
        < 0.01 := by
  norm_num [get_resultados, calcular_inss_eq, calcular_insalubridade,
    calcular_vr, calcular_vt, SALARIO_MINIMO, abs_sub_lt_iff]
  rw [abs_of_nonneg (by norm_num)]
  norm_num

/-- C10: The net salary, the total discounts and every other computed money
value are independent of the advance-pay percentage: two inputs differing
only in `adiantamento_salario` yield the same `salario_liquido` and the same
`total_descontos`; the advance amount only feeds the display lines. -/
theorem salario_liquido_independent_of_adiantamento
    (salario_bruto ad1 ad2 insal valor_vr : ℚ) (dias_vr : ℤ)
    (pvr pvt psaude podonto : ℚ) :
    (get_resultados salario_bruto ad1 insal valor_vr dias_vr
        pvr pvt psaude podonto).salario_liquido =
      (get_resultados salario_bruto ad2 insal valor_vr dias_vr
        pvr pvt psaude podonto).salario_liquido ∧
    (get_resultados salario_bruto ad1 insal valor_vr dias_vr
        pvr pvt psaude podonto).total_descontos =
      (get_resultados salario_bruto ad2 insal valor_vr dias_vr
        pvr pvt psaude podonto).total_descontos :=
  ⟨rfl, rfl⟩

/-- C9: Conditional breakdown presentation with guarded division: every
discount category (VR, VT, health, dental) whose percentage is 0 yields its
"no discount of this type" notice and no numeric discount line; the INSS
line is always present and carries the effective rate
`inss / gross * 100`, which is 0 when the gross salary is 0, so the division
by zero never occurs. -/
theorem resultados_linhas_gating (sb ad insal vvr : ℚ) (dvr : ℤ)
    (pvr pvt ps po : ℚ) :
    ((0 < sb →
        Linha.descontoINSS (calcular_inss sb / sb * 100) (calcular_inss sb) ∈
          (get_resultados sb ad insal vvr dvr pvr pvt ps po).linhas) ∧
      (sb = 0 →
        Linha.descontoINSS 0 (calcular_inss sb) ∈
          (get_resultados sb ad insal vvr dvr pvr pvt ps po).linhas)) ∧
    (pvr = 0 →
      Linha.semDescontoVR ∈
          (get_resultados sb ad insal vvr dvr pvr pvt ps po).linhas ∧
        ∀ q v : ℚ, Linha.descontoVR q v ∉
          (get_resultados sb ad insal vvr dvr pvr pvt ps po).linhas) ∧
    (pvt = 0 →
      Linha.semDescontoVT ∈
          (get_resultados sb ad insal vvr dvr pvr pvt ps po).linhas ∧
        ∀ q v : ℚ, Linha.descontoVT q v ∉
          (get_resultados sb ad insal vvr dvr pvr pvt ps po).linhas) ∧
    (ps = 0 →
      Linha.semDescontoSaude ∈
          (get_resultados sb ad insal vvr dvr pvr pvt ps po).linhas ∧
        ∀ q v : ℚ, Linha.descontoSaude q v ∉
          (get_resultados sb ad insal vvr dvr pvr pvt ps po).linhas) ∧
    (po = 0 →
      Linha.semDescontoOdonto ∈
          (get_resultados sb ad insal vvr dvr pvr pvt ps po).linhas ∧
        ∀ q v : ℚ, Linha.descontoOdonto q v ∉
          (get_resultados sb ad insal vvr dvr pvr pvt ps po).linhas) := by
  refine ⟨⟨fun h => ?_, fun h => ?_⟩, fun h => ⟨?_, fun q v => ?_⟩,
    fun h => ⟨?_, fun q v => ?_⟩, fun h => ⟨?_, fun q v => ?_⟩,
    fun h => ⟨?_, fun q v => ?_⟩⟩ <;>
    simp only [get_resultados, h, List.mem_cons, List.not_mem_nil] <;>
    norm_num <;>
    split_ifs <;>
    simp

/-- Witness for C9: gross 3000, all four discount percentages 0. -/
theorem resultados_linhas_gating_witness :
    Linha.descontoINSS (calcular_inss 3000 / 3000 * 100) (calcular_inss 3000) ∈
        (get_resultados 3000 0 20 20 22 0 0 0 0).linhas ∧
      Linha.semDescontoVR ∈ (get_resultados 3000 0 20 20 22 0 0 0 0).linhas ∧
      Linha.descontoVR 10 100 ∉ (get_resultados 3000 0 20 20 22 0 0 0 0).linhas ∧
      Linha.semDescontoVT ∈ (get_resultados 3000 0 20 20 22 0 0 0 0).linhas ∧
      Linha.semDescontoSaude ∈ (get_resultados 3000 0 20 20 22 0 0 0 0).linhas ∧
      Linha.semDescontoOdonto ∈ (get_resultados 3000 0 20 20 22 0 0 0 0).linhas :=
  ⟨(resultados_linhas_gating 3000 0 20 20 22 0 0 0 0).1.1 (by norm_num),
    ((resultados_linhas_gating 3000 0 20 20 22 0 0 0 0).2.1 rfl).1,
    ((resultados_linhas_gating 3000 0 20 20 22 0 0 0 0).2.1 rfl).2 10 100,
    ((resultados_linhas_gating 3000 0 20 20 22 0 0 0 0).2.2.1 rfl).1,
    ((resultados_linhas_gating 3000 0 20 20 22 0 0 0 0).2.2.2.1 rfl).1,
    ((resultados_linhas_gating 3000 0 20 20 22 0 0 0 0).2.2.2.2 rfl).1⟩

/-- The Gregorian leap-year rule as the spec words it: divisible by 4,
except centuries not divisible by 400.  The modelled `isleap` agrees
with it. -/
theorem isleap_eq_gregorian (y : ℤ) :
    isleap y = true ↔ (4 ∣ y ∧ ¬(100 ∣ y)) ∨ 400 ∣ y := by
  simp only [isleap, Bool.and_eq_true, beq_iff_eq, Bool.or_eq_true,
    bne_iff_ne, ne_eq, ← Int.emod_emod_of_dvd, ← Int.dvd_iff_emod_eq_zero]
  constructor
  · rintro ⟨h4, h100 | h400⟩
    · exact Or.inl ⟨h4, h100⟩
    · exact Or.inr h400
  · rintro (⟨h4, h100⟩ | h400)
    · exact ⟨h4, Or.inl h100⟩
    · exact ⟨dvd_trans (by norm_num) h400, Or.inr h400⟩

/-- C8: Date validity: `verificar_dias_validos` returns `false` for a month
outside 1-12, and otherwise returns `true` iff
`0 ≤ worked_days ≤ days_in_month`, where February has 29 days exactly in
Gregorian leap years; in particular `(2024, 2, 29)` is valid, `(2023, 2, 29)`
is not, and `(2025, 13, 1)` is not. -/
theorem verificar_dias_validos_spec :
    (∀ y m d : ℤ, (m < 1 ∨ 12 < m) → verificar_dias_validos y m d = false) ∧
      (∀ y m d : ℤ, 1 ≤ m → m ≤ 12 →
        (verificar_dias_validos y m d = true ↔
          0 ≤ d ∧ d ≤ dias_no_mes y m)) ∧
      (∀ y : ℤ, dias_no_mes y 2 =
        if (4 ∣ y ∧ ¬(100 ∣ y)) ∨ 400 ∣ y then 29 else 28) ∧
      verificar_dias_validos 2024 2 29 = true ∧
      verificar_dias_validos 2023 2 29 = false ∧
      verificar_dias_validos 2025 13 1 = false := by
  refine ⟨fun y m d hm => ?_, fun y m d h1 h2 => ?_, fun y => ?_, ?_, ?_, ?_⟩
  · rw [verificar_dias_validos, if_pos hm]
  · rw [verificar_dias_validos, if_neg (by push_neg; omega)]
    simp
  · rcases Bool.eq_false_or_eq_true (isleap y) with h | h <;>
      rw [dias_no_mes] <;>
      simp [mdays, h, ← isleap_eq_gregorian, Int.toNat_ofNat]
  · decide
  · decide
  · decide

/-- Witness for C8 at `(2025, 4, 30)`. -/
theorem verificar_dias_validos_spec_witness :
    verificar_dias_validos 2025 4 30 = true :=
  (verificar_dias_validos_spec.2.1 2025 4 30 (by norm_num) (by norm_num)).2
    (by decide)

theorem isDigit_digitChar (d : ℕ) (hd : d < 10) : (digitChar d).isDigit = true := by
  rw [digitChar]
  interval_cases d <;> decide

theorem charToDigit_digitChar (d : ℕ) (hd : d < 10) : charToDigit (digitChar d) = d := by
  rw [digitChar, charToDigit]
  interval_cases d <;> decide

theorem isDigit_ne_special (c : Char) (h : c.isDigit = true) :
    c ≠ '.' ∧ c ≠ ',' ∧ c ≠ '-' ∧ c ≠ '+' := by
  refine ⟨?_, ?_, ?_, ?_⟩ <;> rintro rfl <;> exact absurd h (by decide)

theorem natToChars_all_isDigit (n : ℕ) : ∀ c ∈ natToChars n, c.isDigit = true := by
  intro c hc
  rw [natToChars] at hc
  split_ifs at hc with h
  · simp only [List.mem_singleton] at hc
    subst hc
    decide
  · simp only [List.mem_reverse, List.mem_map] at hc
    obtain ⟨d, hd, rfl⟩ := hc
    exact isDigit_digitChar d (Nat.digits_lt_base (by norm_num) hd)

theorem natToChars_ne_nil (n : ℕ) : natToChars n ≠ [] := by
  rw [natToChars]
  split_ifs with h
  · simp
  · simp [Nat.digits_ne_nil_iff_ne_zero.mpr h]

theorem parse_natToChars (n : ℕ) :
    Nat.ofDigits 10 (((natToChars n).map charToDigit).reverse) = n := by
  rw [natToChars]
  split_ifs with h
  · subst h
    decide
  · rw [List.map_reverse, List.reverse_reverse, List.map_map]
    have : (Nat.digits 10 n).map (charToDigit ∘ digitChar) = Nat.digits 10 n := by
      have := List.map_congr_left
        (f := charToDigit ∘ digitChar) (g := id) (l := Nat.digits 10 n)
        (fun d hd => charToDigit_digitChar d (Nat.digits_lt_base (by norm_num) hd))
      rw [this, List.map_id]
    rw [this, Nat.ofDigits_digits]

theorem filter_ne_dot_agruparRev (k : ℕ) : ∀ ds : List Char, ds.length ≤ k →
    (∀ c ∈ ds, c ≠ '.') → (agruparRev ds).filter (fun c => c ≠ '.') = ds := by
  induction k with
  | zero =>
    intro ds hlen _
    have hnil : ds = [] := List.length_eq_zero.mp (Nat.le_zero.mp hlen)
    subst hnil
    rw [agruparRev]
    simp
  | succ k ih =>
    intro ds hlen h
    rw [agruparRev]
    split_ifs with h3
    · exact List.filter_eq_self.mpr (fun c hc => by simpa using h c hc)
    · rw [List.filter_append]
      have htake : (ds.take 3).filter (fun c => c ≠ '.') = ds.take 3 :=
        List.filter_eq_self.mpr
          (fun c hc => by simpa using h c (List.take_subset 3 ds hc))
      have hdrop : (agruparRev (ds.drop 3)).filter (fun c => c ≠ '.') = ds.drop 3 :=
        ih (ds.drop 3) (by rw [List.length_drop]; omega)
          (fun c hc => h c (List.drop_subset 3 ds hc))
      rw [htake, List.filter_cons_of_neg (by simp), hdrop, List.take_append_drop]

theorem filter_ne_dot_agrupar (ds : List Char) (h : ∀ c ∈ ds, c ≠ '.') :
    (agrupar ds).filter (fun c => c ≠ '.') = ds := by
  rw [agrupar, List.filter_reverse,
    filter_ne_dot_agruparRev ds.reverse.length ds.reverse le_rfl
      (fun c hc => h c (List.mem_reverse.mp hc)),
    List.reverse_reverse]

theorem takeWhile_dropWhile_append_cons (p : Char → Bool) (a : List Char)
    (x : Char) (b : List Char) (ha : ∀ c ∈ a, p c = true) (hx : p x = false) :
    (a ++ x :: b).takeWhile p = a ∧ (a ++ x :: b).dropWhile p = x :: b := by
  induction a with
  | nil => simp [List.takeWhile_cons, List.dropWhile_cons, hx]
  | cons c a ih =>
    have hc : p c = true := ha c (by simp)
    have hrest := ih (fun d hd => ha d (by simp [hd]))
    simp only [List.cons_append, List.takeWhile_cons, List.dropWhile_cons, hc,
      if_true, hrest.1, hrest.2]
    simp

theorem pyFloatAbs_formatted (m : ℕ) :
    pyFloatAbs (natToChars (m / 100) ++
        '.' :: [digitChar (m % 100 / 10), digitChar (m % 100 % 10)]) =
      some ((m : ℚ) / 100) := by
  have h10 : m % 100 / 10 < 10 := by omega
  have h1 : m % 100 % 10 < 10 := by omega
  have hA : ∀ c ∈ natToChars (m / 100), (fun c => decide (c ≠ '.')) c = true :=
    fun c hc => by
      simpa using (isDigit_ne_special c (natToChars_all_isDigit _ c hc)).1
  obtain ⟨htw, hdw⟩ := takeWhile_dropWhile_append_cons (fun c => c ≠ '.')
    (natToChars (m / 100)) '.'
    [digitChar (m % 100 / 10), digitChar (m % 100 % 10)] hA (by simp)
  rw [pyFloatAbs]
  simp only [htw, hdw]
  rw [if_neg (by simp), List.tail_cons,
    if_neg (by simp [natToChars_ne_nil (m / 100)]),
    if_pos ⟨List.all_eq_true.mpr (fun c hc => natToChars_all_isDigit _ c hc),
      List.all_eq_true.mpr (fun c hc => by
        rcases List.mem_pair.mp hc with rfl | rfl
        · exact isDigit_digitChar _ h10
        · exact isDigit_digitChar _ h1)⟩]
  rw [parse_natToChars]
  simp only [List.map_cons, List.map_nil, charToDigit_digitChar _ h10,
    charToDigit_digitChar _ h1, List.reverse_cons, List.reverse_nil,
    List.nil_append, List.cons_append, List.length_cons, List.length_nil]
  rw [Nat.ofDigits]
  rw [Nat.ofDigits]
  rw [Nat.ofDigits]
  have hqr : (m : ℚ) = 100 * ((m / 100 : ℕ) : ℚ) + ((m % 100 : ℕ) : ℚ) := by
    exact_mod_cast (Nat.div_add_mod m 100).symm
  have hrr : ((m % 100 : ℕ) : ℚ) =
      10 * ((m % 100 / 10 : ℕ) : ℚ) + ((m % 100 % 10 : ℕ) : ℚ) := by
    exact_mod_cast (Nat.div_add_mod (m % 100) 10).symm
  congr 1
  rw [hqr, hrr]
  push_cast
  ring

theorem formatar_valor_int_cents (n : ℤ) :
    formatar_valor ((n : ℚ) / 100) =
      String.mk ((if n < 0 then ['-'] else []) ++
        agrupar (natToChars (n.natAbs / 100)) ++
        ',' :: [digitChar (n.natAbs % 100 / 10), digitChar (n.natAbs % 100 % 10)]) := by
  have hcents : round ((n : ℚ) / 100 * 100) = n := by
    rw [div_mul_cancel₀ _ (by norm_num : (100 : ℚ) ≠ 0), round_intCast]
  simp only [formatar_valor, hcents]

/-- C7: Parse/format round trip: for every value representable with two
decimal digits (every `n / 100` with `n : ℤ`), parsing the Brazilian-format
rendering gives the value back: `limpar_formato (formatar_valor x) = x`
(exactly over `ℚ`, hence within any floating-point tolerance). -/
theorem limpar_formatar_round_trip (x : ℚ) (hx : ∃ n : ℤ, x = n / 100) :
    limpar_formato (formatar_valor x) = some x := by
  obtain ⟨n, rfl⟩ := hx
  rw [formatar_valor_int_cents]
  have hAdig := natToChars_all_isDigit (n.natAbs / 100)
  have hAne := natToChars_ne_nil (n.natAbs / 100)
  have h10 : n.natAbs % 100 / 10 < 10 := by omega
  have h1 : n.natAbs % 100 % 10 < 10 := by omega
  set A := natToChars (n.natAbs / 100) with hA
  set F := [digitChar (n.natAbs % 100 / 10), digitChar (n.natAbs % 100 % 10)]
    with hF
  set sign : List Char := if n < 0 then ['-'] else [] with hsign
  have hFdig : ∀ c ∈ F, c.isDigit = true := by
    intro c hc
    rcases List.mem_pair.mp hc with rfl | rfl
    · exact isDigit_digitChar _ h10
    · exact isDigit_digitChar _ h1
  have hne : String.mk (sign ++ agrupar A ++ ',' :: F) ≠ "" := by
    intro hcontra
    have hd := congrArg String.data hcontra
    simp at hd
  rw [limpar_formato, if_neg hne]
  have hdata : (String.mk (sign ++ agrupar A ++ ',' :: F)).data =
      sign ++ agrupar A ++ ',' :: F := rfl
  rw [hdata]
  have hsignfil : sign.filter (fun c => c ≠ '.') = sign := by
    rw [hsign]
    split_ifs <;> simp
  have hfilter : (sign ++ agrupar A ++ ',' :: F).filter (fun c => c ≠ '.') =
      sign ++ A ++ ',' :: F := by
    rw [List.filter_append, List.filter_append, hsignfil,
      filter_ne_dot_agrupar A
        (fun c hc => (isDigit_ne_special c (hAdig c hc)).1),
      List.filter_cons_of_pos (by simp),
      List.filter_eq_self.mpr
        (fun c hc => by simpa using (isDigit_ne_special c (hFdig c hc)).1)]
  rw [hfilter]
  have hsignmap : sign.map (fun c => if c = ',' then '.' else c) = sign := by
    rw [hsign]
    split_ifs <;> simp
  have hmapid : ∀ l : List Char, (∀ c ∈ l, c.isDigit = true) →
      l.map (fun c => if c = ',' then '.' else c) = l := by
    intro l hl
    have := List.map_congr_left
      (f := fun c => if c = ',' then '.' else c) (g := id) (l := l)
      (fun c hc => by
        simp [if_neg (isDigit_ne_special c (hl c hc)).2.1])
    rw [this, List.map_id]
  have hmap : (sign ++ A ++ ',' :: F).map (fun c => if c = ',' then '.' else c) =
      sign ++ A ++ '.' :: F := by
    rw [List.map_append, List.map_append, hsignmap, hmapid A hAdig,
      List.map_cons, if_pos rfl, hmapid F hFdig]
  rw [hmap]
  obtain ⟨a₀, A', hAcons⟩ := List.exists_cons_of_ne_nil hAne
  have ha₀ : a₀.isDigit = true :=
    hAdig a₀ (by rw [hAcons]; exact List.mem_cons_self a₀ A')
  rcases lt_or_le n 0 with hn | hn
  · rw [hsign, if_pos hn]
    rw [List.cons_append, List.cons_append, pyFloat, if_pos rfl,
      List.nil_append, hA, hF, pyFloatAbs_formatted]
    have hm : ((n.natAbs : ℚ)) = -(n : ℚ) := by
      rw [Int.cast_natAbs, Int.cast_abs]
      exact abs_of_neg (by exact_mod_cast hn)
    simp [hm, neg_div]
  · rw [hsign, if_neg (not_lt.mpr hn), List.nil_append]
    rw [hAcons, List.cons_append, pyFloat,
      if_neg (by simpa using (isDigit_ne_special a₀ ha₀).2.2.1),
      if_neg (by simpa using (isDigit_ne_special a₀ ha₀).2.2.2),
      ← List.cons_append, ← hAcons, hA, hF, pyFloatAbs_formatted]
    have hm : ((n.natAbs : ℚ)) = (n : ℚ) := by
      rw [Int.cast_natAbs, Int.cast_abs]
      exact abs_of_nonneg (by exact_mod_cast hn)
    rw [hm]

/-- Witness for C7 at the four listed values 0, 1518.00, 8157.41 and
1000000.55. -/
theorem limpar_formatar_round_trip_witness :
    limpar_formato (formatar_valor 0) = some 0 ∧
      limpar_formato (formatar_valor 1518.00) = some 1518.00 ∧
      limpar_formato (formatar_valor 8157.41) = some 8157.41 ∧
      limpar_formato (formatar_valor 1000000.55) = some 1000000.55 :=
  ⟨limpar_formatar_round_trip 0 ⟨0, by norm_num⟩,
    limpar_formatar_round_trip 1518.00 ⟨151800, by norm_num⟩,
    limpar_formatar_round_trip 8157.41 ⟨815741, by norm_num⟩,
    limpar_formatar_round_trip 1000000.55 ⟨100000055, by norm_num⟩⟩

end CalcularSalario
